import Mathlib

/-!
Shallow embedding of `src/pyoutlook.py` (classes `Folder`, `OutlookAPI`, `Mail`).

Modelling conventions:
* COM objects reached through the host are modelled by concrete Lean data:
  a mail item carries its recipient list (`MailItem`), a host folder is a
  finite tree of named folders (`HFolder`), and the host `Items` collection
  of a folder is a list of mail items together with the host-side cursor
  used by `GetLast` / `GetPrevious` (`ItemsCol`).
* Python `None` becomes `Option.none`; a Python attribute access on `None`
  raises `AttributeError`, modelled by returning `Except.error` with a
  `PyError` whose `kind` is the exception type name.
* Python falsiness tests (`if not loops`, `if attachments`) are translated
  literally: `none` and the empty list / zero are falsy.
* Python dictionaries built by comprehensions are modelled as association
  lists in comprehension order; `dict.get` is `lookupDict`.
-/

namespace Pyoutlook

/-- A Python exception value: the type name (`type(ex).__name__`) and message. -/
structure PyError where
  kind : String
  msg : String
deriving Repr, DecidableEq

/-- The `AttributeError` raised when Python evaluates `None.<attr>`. -/
def attributeError (attr : String) : PyError :=
  ⟨"AttributeError", "NoneType object has no attribute " ++ attr⟩

/-- A recipient COM object as used by `Mail`: `Resolved` flag, raw `Address`,
the Exchange primary SMTP address and the Exchange display name. -/
structure Recipient where
  Resolved : Bool
  Address : String
  smtpAddress : String
  displayName : String
deriving Repr, DecidableEq

/-- A mail-item COM object: only the `Recipients` collection is relevant here. -/
structure MailItem where
  Recipients : List Recipient
deriving Repr, DecidableEq

/-- The instance attributes set by `Mail.__init__` (src/pyoutlook.py:122-132).
`COMObject` is the optional host handle; the remaining fields are the
placeholder defaults. -/
structure Mail where
  COMObject : Option MailItem
  Sender : Option String
  To : Option String
  Subject : Option String
  HTMLBody : Option String
  HTMLformat : Option String
  Attachments : List String
  CC : Option String
  BCC : Option String
deriving Repr, DecidableEq

/-- `Mail.__init__(COMObject=None)`: stores the handle and the placeholder
defaults.  `HTMLBody` is assigned twice in the source (`None`, then
`"Sample test message created."`); the second assignment wins. -/
def Mail.init (COMObject : Option MailItem) : Mail :=
  { COMObject := COMObject
    Sender := none
    To := some "SampleMail@mail.com"
    Subject := some "Sample Email"
    HTMLBody := some "Sample test message created."
    HTMLformat := none
    Attachments := []
    CC := some "SampleSomebody@mail.com"
    BCC := none }

/-- A folder's `Items` COM collection: the messages oldest-first, plus the
host-side cursor used by `GetLast` / `GetPrevious`.  `GetLast` positions the
cursor on the final element; `GetPrevious` moves it back one step and
returns `Nothing` (`none`) once it has moved before the first element. -/
structure ItemsCol where
  items : List MailItem
  cursor : Int
deriving Repr, DecidableEq

/-- `Items.Count`. -/
def ItemsCol.Count (c : ItemsCol) : Nat := c.items.length

/-- The element at integer cursor position `k` (`none` when out of range). -/
def ItemsCol.itemAt (c : ItemsCol) (k : Int) : Option MailItem :=
  if 0 ≤ k then c.items.get? k.toNat else none

/-- `Items.GetLast()`: returns the last item (or `Nothing` when empty) and
places the cursor on the last position. -/
def ItemsCol.GetLast (c : ItemsCol) : Option MailItem × ItemsCol :=
  (c.items.getLast?, { c with cursor := (c.items.length : Int) - 1 })

/-- `Items.GetPrevious()`: moves the cursor one step towards the start and
returns the item now under it (`Nothing` once before the first element). -/
def ItemsCol.GetPrevious (c : ItemsCol) : Option MailItem × ItemsCol :=
  (c.itemAt (c.cursor - 1), { c with cursor := c.cursor - 1 })

/-- The `for _ in range(loops): yield mail; mail = Mail(GetPrevious())` body of
`Folder.loop_trought_last_messages`, with the pending `mail` and the state of
the `Items` cursor made explicit. -/
def loopBody : Nat → Mail → ItemsCol → List Mail
  | 0, _, _ => []
  | Nat.succ n, mail, c =>
      mail :: loopBody n (Mail.init (ItemsCol.GetPrevious c).fst) (ItemsCol.GetPrevious c).snd

/-- `Folder.loop_trought_last_messages(loops=None)` (src/pyoutlook.py:28-34),
as the list of yielded `Mail` records.  `loops = folder_items.Count if not
loops else loops` tests Python falsiness, so both `None` and `0` fall back to
`Count`.  The first record wraps `GetLast`, each next one `GetPrevious`. -/
def Folder.loop_trought_last_messages (folder_items : ItemsCol) (loops : Option Nat) : List Mail :=
  let n : Nat :=
    match loops with
    | none => folder_items.Count
    | some k => if k = 0 then folder_items.Count else k
  loopBody n (Mail.init (ItemsCol.GetLast folder_items).fst) (ItemsCol.GetLast folder_items).snd

/-! ### `Mail` operations (src/pyoutlook.py:137-243)

Every operation begins with an attribute access on `self.COMObject`; when the
record is unbound (`COMObject is None`) that access raises `AttributeError`.
Operations whose host-side effect is irrelevant to the claims return
`Except.ok ()` in the bound case. -/

/-- `Mail.send(self)`: `self.COMObject.Send()`. -/
def Mail.send (m : Mail) : Except PyError Unit :=
  match m.COMObject with
  | none => .error (attributeError "Send")
  | some _ => .ok ()

/-- `Mail.save(self)`: `self.COMObject.Save()`. -/
def Mail.save (m : Mail) : Except PyError Unit :=
  match m.COMObject with
  | none => .error (attributeError "Save")
  | some _ => .ok ()

/-- `Mail.close(self)`: `self.COMObject.Close(1)`. -/
def Mail.close (m : Mail) : Except PyError Unit :=
  match m.COMObject with
  | none => .error (attributeError "Close")
  | some _ => .ok ()

/-- `Mail.display(self)`: `self.COMObject.Display()`. -/
def Mail.display (m : Mail) : Except PyError Unit :=
  match m.COMObject with
  | none => .error (attributeError "Display")
  | some _ => .ok ()

/-- `Mail.mark_unread(self)`: `self.COMObject.UnRead = True` (an attribute
assignment on the handle, hence `AttributeError` when unbound). -/
def Mail.mark_unread (m : Mail) : Except PyError Unit :=
  match m.COMObject with
  | none => .error (attributeError "UnRead")
  | some _ => .ok ()

/-- `Mail.remove_attachemnt(self)` (source spelling):
`self.COMObject.Attachments.Remove(1)`. -/
def Mail.remove_attachemnt (m : Mail) : Except PyError Unit :=
  match m.COMObject with
  | none => .error (attributeError "Attachments")
  | some _ => .ok ()

/-- `Mail.add_recipients(self, recipients)`: the `for` loop calls
`self.COMObject.Recipients.Add(recipient)` once per list element, so the
handle is only touched when the list is non-empty. -/
def Mail.add_recipients (m : Mail) : List String → Except PyError Unit
  | [] => .ok ()
  | _ :: rest =>
      match m.COMObject with
      | none => .error (attributeError "Recipients")
      | some _ => Mail.add_recipients m rest

/-- The `for attachment in attachments: self.COMObject.Attachments.Add(...)`
loop of `Mail.add_attachments`, returning the list of attachments actually
handed to the host (the `Path`-to-`str` normalisation is the identity here
since attachments are modelled as path strings). -/
def attachLoop (m : Mail) : List String → Except PyError (List String)
  | [] => .ok []
  | a :: rest =>
      match m.COMObject with
      | none => .error (attributeError "Attachments")
      | some _ =>
          match attachLoop m rest with
          | .error e => .error e
          | .ok added => .ok (a :: added)

/-- `Mail.add_attachments(self, attachments=None)` (src/pyoutlook.py:169-175):
`attachments = attachments if attachments else self.Attachments` tests Python
falsiness, so both `None` and the empty list fall back to the stored
`self.Attachments`. -/
def Mail.add_attachments (m : Mail) (attachments : Option (List String)) :
    Except PyError (List String) :=
  let effective : List String :=
    match attachments with
    | none => m.Attachments
    | some l => if l = [] then m.Attachments else l
  attachLoop m effective

/-- `Mail.check_valid_mail_address(address)`: returns `address.Resolved`. -/
def Mail.check_valid_mail_address (r : Recipient) : Bool := r.Resolved

/-- The generator body of `Mail.get_recipients_mail_address`: for each
recipient, yield its Exchange primary SMTP address when resolved, otherwise
emit the diagnostic print and yield nothing.  Returns (yielded addresses,
printed diagnostics). -/
def recipSmtpLoop : List Recipient → List String × List String
  | [] => ([], [])
  | r :: rest =>
      let acc := recipSmtpLoop rest
      if Mail.check_valid_mail_address r then (r.smtpAddress :: acc.fst, acc.snd)
      else (acc.fst, ("addres=" ++ r.Address) :: acc.snd)

/-- `Mail.get_recipients_mail_address(self)` (src/pyoutlook.py:226-236):
iterates `self.COMObject.Recipients`, yielding addresses of resolved
recipients and printing a diagnostic for unresolved ones. -/
def Mail.get_recipients_mail_address (m : Mail) :
    Except PyError (List String × List String) :=
  match m.COMObject with
  | none => .error (attributeError "Recipients")
  | some item => .ok (recipSmtpLoop item.Recipients)

/-- `Mail.get_recipients_address(self)` (src/pyoutlook.py:238-243): the list
comprehension keeping the Exchange display name of each resolved recipient. -/
def Mail.get_recipients_address (m : Mail) : Except PyError (List String) :=
  match m.COMObject with
  | none => .error (attributeError "Recipients")
  | some item =>
      .ok ((item.Recipients.filter (fun r => Mail.check_valid_mail_address r)).map
        (fun r => r.displayName))

/-! ### Host folders, `Folder` snapshots and `OutlookAPI` -/

/-- A host-side folder COM object: a name and its child folders. -/
inductive HFolder : Type where
  | node (name : String) (children : List HFolder)
deriving Repr

/-- `COMObject.Name` of a host folder. -/
def HFolder.name : HFolder → String
  | .node n _ => n

/-- The `.Folders` child collection of a host folder. -/
def HFolder.children : HFolder → List HFolder
  | .node _ cs => cs

/-- The wrapper class `Folder` (src/pyoutlook.py:11-26): name, retained COM
handle, and the recursively snapshotted name-to-wrapper dictionary. -/
inductive Folder : Type where
  | mk (Name : String) (COMObject : HFolder) (Folders : List (String × Folder))

/-- `Folder.Name`. -/
def Folder.Name : Folder → String
  | .mk n _ _ => n

/-- `Folder.COMObject`. -/
def Folder.COMObject : Folder → HFolder
  | .mk _ h _ => h

/-- `Folder.Folders`. -/
def Folder.Folders : Folder → List (String × Folder)
  | .mk _ _ fs => fs

/-- `Folder.__init__(COMObject)`: reads `Name`, keeps the handle, and
recursively builds `{value.Name: Folder(value) for value in COMObject.Folders}`. -/
def Folder.ofH : HFolder → Folder
  | .node n cs =>
      Folder.mk n (.node n cs)
        (cs.attach.map (fun c => (c.1.name, Folder.ofH c.1)))
decreasing_by
  have hmem := List.sizeOf_lt_of_mem c.2
  simp only [HFolder.node.sizeOf_spec]
  omega

/-- `Mail.move_to(self, folder)`: `self.COMObject.Move(folder)`. -/
def Mail.move_to (m : Mail) (folder : HFolder) : Except PyError Unit :=
  match m.COMObject with
  | none => .error (attributeError "Move")
  | some _ => .ok ()

/-- `{value.name: Folder(value) for value in self.namespace.Folders}` — the
top-level accounts dictionary, as an association list in comprehension order. -/
def snapshotAccounts (fs : List HFolder) : List (String × Folder) :=
  fs.map (fun f => (f.name, Folder.ofH f))

/-- Python `dict.get(key)` on an association list built by a comprehension:
with duplicate keys the comprehension's later entry wins, so `get` returns
the value of the last matching pair. -/
def lookupDict (l : List (String × Folder)) (k : String) : Option Folder :=
  match l with
  | [] => none
  | p :: rest =>
      match lookupDict rest k with
      | some v => some v
      | none => if p.1 = k then some p.2 else none

/-- The host world as seen during `OutlookAPI.__init__` and the folder
mutators: whether `Dispatch('Outlook.Application')` (and the subsequent
`GetNameSpace` / folder enumeration) succeeds, the current top-level
(`namespace.Folders`) folder list, and the machine's process names (scanned
by `check_outlook_is_open`). -/
structure HostEnv where
  dispatch : Except PyError Unit
  folders : List HFolder
  processNames : List String
deriving Repr

/-- `OutlookAPI.check_outlook_is_open()` (src/pyoutlook.py:73-79): scans the
process list and reports whether some process is named `OUTLOOK.EXE`. -/
def OutlookAPI.check_outlook_is_open (env : HostEnv) : Bool :=
  env.processNames.contains "OUTLOOK.EXE"

/-- The instance attributes `OutlookAPI.__init__` assigns on success:
`accounts`, the active account's COM handle, and `mail = None`. -/
structure InstState where
  accounts : List (String × Folder)
  account : HFolder
  mail : Option Mail

/-- Process-wide Python state relevant to the `OutlookAPI` singleton: the
class attribute `_outlookapi` (the id of the stored instance, if any), a
fresh-id counter for `object.__new__`, the number of host connections opened
by `Dispatch` so far, and the singleton instance's attribute state. -/
structure ProcState where
  outlookapi : Option Nat
  nextId : Nat
  dispatchCount : Nat
  inst : Option InstState

/-- `OutlookAPI.__new__` (src/pyoutlook.py:45-48): allocate a fresh instance
only when the class attribute `_outlookapi` is unset; otherwise return the
stored instance. -/
def OutlookAPI.pyNew (p : ProcState) : Nat × ProcState :=
  match p.outlookapi with
  | some i => (i, p)
  | none => (p.nextId, { p with outlookapi := some p.nextId, nextId := p.nextId + 1 })

/-- The SystemExit message `"Outlook open status = %s.\n%s: %s"` built from
the `check_outlook_is_open` result and the caught exception. -/
def fatalMessage (env : HostEnv) (e : PyError) : String :=
  "Outlook open status = " ++
    (if OutlookAPI.check_outlook_is_open env then "True" else "False") ++
    ".\n" ++ e.kind ++ ": " ++ e.msg

/-- `OutlookAPI.__init__(account)` (src/pyoutlook.py:50-63) run on the
instance: on host success it opens the connection, snapshots `accounts`,
looks the account up with `dict.get` (a missing account makes the subsequent
`.COMObject` access raise `AttributeError`) and sets `mail = None`; any
exception in the `try` block is converted to `SystemExit(fatalMessage)`. -/
def OutlookAPI.pyInit (p : ProcState) (env : HostEnv) (account : String) :
    Except String ProcState :=
  match env.dispatch with
  | .error e => .error (fatalMessage env e)
  | .ok _ =>
      let accounts := snapshotAccounts env.folders
      match lookupDict accounts account with
      | none =>
          .error (fatalMessage env
            (attributeError "COMObject"))
      | some f =>
          .ok { p with
                dispatchCount := p.dispatchCount + 1
                inst := some ⟨accounts, f.COMObject, none⟩ }

/-- The outcome of evaluating `OutlookAPI(account)`: either the returned
instance (its id) together with the process state, or process termination
by an uncaught `SystemExit` carrying its message. -/
inductive ConstructResult : Type where
  | ok (i : Nat) (p : ProcState)
  | systemExit (message : String)

/-- The `dispatchCount` visible after a construction attempt (unchanged by a
`SystemExit` that aborts before `Dispatch` succeeds). -/
def ConstructResult.dispatchCountOf (p : ProcState) : ConstructResult → Nat
  | .ok _ p2 => p2.dispatchCount
  | .systemExit _ => p.dispatchCount

/-- `OutlookAPI(account)`: Python's `type.__call__` runs `__new__` and then
always runs `__init__` on the returned instance. -/
def OutlookAPI.construct (p : ProcState) (env : HostEnv) (account : String) :
    ConstructResult :=
  let r := OutlookAPI.pyNew p
  match OutlookAPI.pyInit r.snd env account with
  | .error m => .systemExit m
  | .ok p2 => .ok r.fst p2

/-- Host effect of `self.account.Folders.Add(new_folder_name)`: the active
account's child list gains a fresh folder with that name. -/
def HFolder.addChild (f : HFolder) (newName : String) : HFolder :=
  match f with
  | .node n cs => .node n (cs ++ [.node newName []])

/-- Host effect of `self.account.Folders[folder_name].Delete()`: the first
child with that name is removed from the active account. -/
def HFolder.deleteChild (f : HFolder) (folderName : String) : HFolder :=
  match f with
  | .node n cs => .node n (cs.eraseP (fun c => c.name == folderName))

/-- The session state `add_folder` / `delete_folder` act on: the current
host-side top-level folders, the active account's name, and the cached
`accounts` dictionary. -/
structure Session where
  hostFolders : List HFolder
  accountName : String
  accounts : List (String × Folder)

/-- Apply a mutation to the active account inside the host's top-level
folder list. -/
def mutateAccount (fs : List HFolder) (acct : String) (f : HFolder → HFolder) :
    List HFolder :=
  fs.map (fun g => if g.name == acct then f g else g)

/-- `OutlookAPI.add_folder(new_folder_name)` (src/pyoutlook.py:101-105):
delegate to the host's `Folders.Add`, then rebuild `self.accounts` from the
host's current `namespace.Folders`. -/
def OutlookAPI.add_folder (s : Session) (newName : String) : Session :=
  let fs := mutateAccount s.hostFolders s.accountName (fun f => f.addChild newName)
  { s with hostFolders := fs, accounts := snapshotAccounts fs }

/-- `OutlookAPI.delete_folder(folder_name)` (src/pyoutlook.py:107-111):
delegate to the host's `Delete`, then rebuild `self.accounts` from the
host's current `namespace.Folders`. -/
def OutlookAPI.delete_folder (s : Session) (folderName : String) : Session :=
  let fs := mutateAccount s.hostFolders s.accountName (fun f => f.deleteChild folderName)
  { s with hostFolders := fs, accounts := snapshotAccounts fs }

/-! ### Concrete sample inputs used by witnesses and counterexamples -/

/-- A mail item with no recipients. -/
def sampleItem : MailItem := ⟨[]⟩

/-- An `Items` collection holding exactly one message. -/
def itemsOne : ItemsCol := ⟨[sampleItem], 0⟩

/-- A recipient whose resolution check succeeds. -/
def resolvedRecip : Recipient := ⟨true, "ra", "r@x", "R"⟩

/-- A recipient whose resolution check fails. -/
def unresolvedRecip : Recipient := ⟨false, "ua", "u@x", "U"⟩

/-- A mail item with one resolved and one unresolved recipient. -/
def mixedItem : MailItem := ⟨[resolvedRecip, unresolvedRecip]⟩

/-- A bound mail record over `mixedItem`. -/
def boundMail : Mail := Mail.init (some mixedItem)

/-- A host account folder named `a` with no children. -/
def hostA : HFolder := .node "a" []

/-- A healthy host environment exposing the single account `a`. -/
def envOk : HostEnv := ⟨.ok (), [hostA], []⟩

/-- A host environment whose connection attempt raises `com_error`. -/
def envBad : HostEnv := ⟨.error ⟨"com_error", "boom"⟩, [], ["OUTLOOK.EXE"]⟩

/-- A fresh Python process: no singleton stored, no connection opened. -/
def procFresh : ProcState := ⟨none, 0, 0, none⟩

/-- The process state after `OutlookAPI('a')` succeeds once against `envOk`:
instance id 0 stored in the class attribute, one connection opened. -/
def procAfterFirst : ProcState :=
  ⟨some 0, 1, 1, some ⟨snapshotAccounts [hostA], hostA, none⟩⟩

/-! ### Helper lemmas -/

/-- The loop body yields one record per iteration. -/
theorem loopBody_length (n : Nat) :
    ∀ (mail : Mail) (c : ItemsCol), (loopBody n mail c).length = n := by
  induction n with
  | zero => intro mail c; rfl
  | succ n ih => intro mail c; simp [loopBody, ih]

/-- Record `i` of the loop body is the pending record when `i = 0` and
otherwise wraps the item `i` cursor steps back. -/
theorem loopBody_get (n : Nat) :
    ∀ (mail : Mail) (c : ItemsCol) (i : Nat), i < n →
      (loopBody n mail c).get? i =
        some (if i = 0 then mail else Mail.init (c.itemAt (c.cursor - i))) := by
  induction n with
  | zero => intro _ _ _ h; exact absurd h (Nat.not_lt_zero _)
  | succ n ih =>
    intro mail c i h
    match i with
    | 0 => rfl
    | Nat.succ j =>
      have hj : j < n := Nat.lt_of_succ_lt_succ h
      show (loopBody n (Mail.init (ItemsCol.GetPrevious c).fst)
              (ItemsCol.GetPrevious c).snd).get? j = _
      rw [ih _ _ j hj]
      by_cases hj0 : j = 0
      · subst hj0
        simp [ItemsCol.GetPrevious, ItemsCol.itemAt]
      · have harg :
            c.cursor - 1 - (j : Int) = c.cursor - ((Nat.succ j : Nat) : Int) := by
          push_cast
          ring
        simp only [hj0, if_false, Nat.succ_ne_zero, ItemsCol.GetPrevious,
          ItemsCol.itemAt, harg]

/-- The wrapper built by `Folder.__init__` retains the handle it was given. -/
theorem Folder.ofH_COMObject (h : HFolder) : (Folder.ofH h).COMObject = h := by
  cases h with
  | node n cs => simp [Folder.ofH, Folder.COMObject]

/-- `getLast?` agrees with indexing at position `length - 1`. -/
theorem getLast_eq_itemAt (c : ItemsCol) :
    c.items.getLast? = c.itemAt ((c.Count : Int) - 1) := by
  unfold ItemsCol.itemAt ItemsCol.Count
  match hl : c.items with
  | [] => simp
  | a :: t =>
      have hpos : (0 : Int) ≤ ((a :: t).length : Int) - 1 := by
        simp [List.length_cons]
      rw [if_pos hpos]
      have htn : (((a :: t).length : Int) - 1).toNat = t.length := by
        simp [List.length_cons]
      rw [htn]
      have := List.getLast?_eq_getElem? (a :: t)
      simpa [List.get?_eq_getElem?, List.length_cons] using this

/-- Pushing the filters through `recipSmtpLoop`: the yielded addresses are
exactly the SMTP addresses of the resolved recipients, the diagnostics are
exactly the prints for the unresolved ones. -/
theorem recipSmtpLoop_eq (rs : List Recipient) :
    recipSmtpLoop rs =
      ((rs.filter (fun r => Mail.check_valid_mail_address r)).map
          (fun r => r.smtpAddress),
       (rs.filter (fun r => !Mail.check_valid_mail_address r)).map
          (fun r => "addres=" ++ r.Address)) := by
  induction rs with
  | nil => rfl
  | cons r t ih =>
      by_cases hr : Mail.check_valid_mail_address r = true
      · simp [recipSmtpLoop, List.filter_cons, hr, ih]
      · simp [recipSmtpLoop, List.filter_cons, hr, ih,
          Bool.not_eq_true _ ▸ hr]

/-! ### Claim theorems -/

/-- C2: with the limit omitted (`loops=None`), `loop_trought_last_messages`
yields exactly the folder's total item count (`Items.Count`) many records. -/
theorem loop_omitted_limit_yields_count (c : ItemsCol) :
    (Folder.loop_trought_last_messages c none).length = c.Count := by
  simp [Folder.loop_trought_last_messages, loopBody_length]

/-- C3: a `Mail` constructed without a handle carries exactly the placeholder
defaults: `To = "SampleMail@mail.com"`, `Subject = "Sample Email"`,
`CC = "SampleSomebody@mail.com"`, empty `Attachments`, and `BCC` unset. -/
theorem mail_without_handle_placeholder_defaults :
    (Mail.init none).To = some "SampleMail@mail.com" ∧
    (Mail.init none).Subject = some "Sample Email" ∧
    (Mail.init none).CC = some "SampleSomebody@mail.com" ∧
    (Mail.init none).Attachments = [] ∧
    (Mail.init none).BCC = none :=
  ⟨rfl, rfl, rfl, rfl, rfl⟩

/-- C9: an explicit limit of `0` is falsy, so it is treated exactly like an
omitted limit and the sequence length defaults to the total item count — in
particular, on a non-empty folder it does not yield zero records. -/
theorem loop_zero_limit_behaves_like_omitted (c : ItemsCol) :
    Folder.loop_trought_last_messages c (some 0) =
      Folder.loop_trought_last_messages c none ∧
    (Folder.loop_trought_last_messages c (some 0)).length = c.Count ∧
    (0 < c.Count → (Folder.loop_trought_last_messages c (some 0)).length ≠ 0) := by
  refine ⟨rfl, ?_, ?_⟩ <;>
    simp [Folder.loop_trought_last_messages, loopBody_length]
  omega

/-- Witness for C9 at the one-item folder. -/
theorem loop_zero_limit_behaves_like_omitted_witness :
    (Folder.loop_trought_last_messages itemsOne (some 0)).length ≠ 0 :=
  (loop_zero_limit_behaves_like_omitted itemsOne).2.2 (by decide)

/-- C10: an explicitly passed empty attachment list is falsy, so
`add_attachments([])` behaves identically to `add_attachments()` — both fall
back to the record's stored `Attachments` list. -/
theorem add_attachments_empty_list_falls_back (m : Mail) :
    m.add_attachments (some []) = m.add_attachments none ∧
    m.add_attachments (some []) = attachLoop m m.Attachments :=
  ⟨rfl, rfl⟩

/-- C4: immediately after `add_folder` or `delete_folder` returns, `accounts`
is a fresh snapshot of the host's current top-level folders: its key list is
exactly the host's current top-level folder names (no stale, no missing). -/
theorem accounts_consistent_after_folder_mutation (s : Session) (n d : String) :
    (OutlookAPI.add_folder s n).accounts =
      snapshotAccounts (OutlookAPI.add_folder s n).hostFolders ∧
    (OutlookAPI.add_folder s n).accounts.map Prod.fst =
      (OutlookAPI.add_folder s n).hostFolders.map HFolder.name ∧
    (OutlookAPI.delete_folder s d).accounts =
      snapshotAccounts (OutlookAPI.delete_folder s d).hostFolders ∧
    (OutlookAPI.delete_folder s d).accounts.map Prod.fst =
      (OutlookAPI.delete_folder s d).hostFolders.map HFolder.name := by
  refine ⟨rfl, ?_, rfl, ?_⟩ <;>
    simp [OutlookAPI.add_folder, OutlookAPI.delete_folder, snapshotAccounts,
      List.map_map, Function.comp]

/-- C7: on a bound record, `get_recipients_mail_address` yields exactly the
SMTP addresses of the recipients whose resolution check succeeds (unresolved
ones produce only a diagnostic print), `get_recipients_address` keeps exactly
the display names of the resolved recipients, and neither raises. -/
theorem recipients_skip_unresolved (m : Mail) (item : MailItem)
    (h : m.COMObject = some item) :
    m.get_recipients_mail_address =
      .ok ((item.Recipients.filter (fun r => Mail.check_valid_mail_address r)).map
            (fun r => r.smtpAddress),
          (item.Recipients.filter (fun r => !Mail.check_valid_mail_address r)).map
            (fun r => "addres=" ++ r.Address)) ∧
    m.get_recipients_address =
      .ok ((item.Recipients.filter (fun r => Mail.check_valid_mail_address r)).map
            (fun r => r.displayName)) := by
  constructor
  · simp [Mail.get_recipients_mail_address, h, recipSmtpLoop_eq]
  · simp [Mail.get_recipients_address, h]

/-- Witness for C7 at a concrete bound record with one resolved and one
unresolved recipient. -/
theorem recipients_skip_unresolved_witness :
    boundMail.get_recipients_mail_address =
      .ok ((mixedItem.Recipients.filter (fun r => Mail.check_valid_mail_address r)).map
            (fun r => r.smtpAddress),
          (mixedItem.Recipients.filter (fun r => !Mail.check_valid_mail_address r)).map
            (fun r => "addres=" ++ r.Address)) :=
  (recipients_skip_unresolved boundMail mixedItem rfl).1

/-- C1 counterexample: on a folder holding one item, an explicit limit of 2
yields 2 records, not `min 2 1 = 1` — the count-bounded loop runs exactly
`loops` times regardless of `Items.Count`. -/
theorem loop_explicit_limit_not_min :
    (Folder.loop_trought_last_messages itemsOne (some 2)).length ≠
      min 2 itemsOne.Count := by
  decide

/-- C1 (amended): for every folder and explicit positive limit `N`, the loop
yields exactly `N` records; record `i` wraps the item `Count - 1 - i`
positions from the start (most-recent-to-oldest: the first from `GetLast`,
each next from `GetPrevious`), which is the unbound placeholder (`none`
handle) once `i ≥ Count`. -/
theorem loop_explicit_limit_yields_n (c : ItemsCol) (N : Nat) (hN : 0 < N) :
    (Folder.loop_trought_last_messages c (some N)).length = N ∧
    ∀ i : Nat, i < N →
      (Folder.loop_trought_last_messages c (some N)).get? i =
        some (Mail.init (c.itemAt ((c.Count : Int) - 1 - i))) := by
  have hn0 : N ≠ 0 := Nat.pos_iff_ne_zero.mp hN
  constructor
  · simp [Folder.loop_trought_last_messages, hn0, loopBody_length]
  · intro i hi
    have hbody :
        Folder.loop_trought_last_messages c (some N) =
          loopBody N (Mail.init (ItemsCol.GetLast c).fst)
            (ItemsCol.GetLast c).snd := by
      simp [Folder.loop_trought_last_messages, hn0]
    rw [hbody, loopBody_get N _ _ i hi]
    by_cases hi0 : i = 0
    · subst hi0
      simp [ItemsCol.GetLast, getLast_eq_itemAt c, ItemsCol.itemAt,
        ItemsCol.Count]
    · have hcur : (ItemsCol.GetLast c).snd.cursor = (c.Count : Int) - 1 := rfl
      simp only [hi0, if_false, hcur]
      rfl

/-- Witness for C1 (amended) at a one-item folder with limit 1. -/
theorem loop_explicit_limit_yields_n_witness :
    (Folder.loop_trought_last_messages itemsOne (some 1)).length = 1 :=
  (loop_explicit_limit_yields_n itemsOne 1 (by decide)).1

/-- C8 counterexample: on an unbound record (`COMObject is None`),
`add_recipients([])` succeeds silently — its loop body never touches the
handle — contradicting the claim that every listed operation fails. -/
theorem unbound_add_recipients_empty_succeeds :
    (Mail.init none).COMObject = none ∧
    (Mail.init none).add_recipients [] = Except.ok () :=
  ⟨rfl, rfl⟩

/-- C8 (amended): on an unbound record, `send`, `save`, `move_to`, `close`,
`display`, `mark_unread` and `remove_attachemnt` always raise
`AttributeError`; `add_recipients` and `add_attachments` raise exactly when
their effective list is non-empty (they only touch the handle once per
element), succeeding silently on an empty effective list. -/
theorem unbound_operations_raise (m : Mail) (h : m.COMObject = none) :
    m.send = .error (attributeError "Send") ∧
    m.save = .error (attributeError "Save") ∧
    (∀ f : HFolder, m.move_to f = .error (attributeError "Move")) ∧
    m.close = .error (attributeError "Close") ∧
    m.display = .error (attributeError "Display") ∧
    m.mark_unread = .error (attributeError "UnRead") ∧
    m.remove_attachemnt = .error (attributeError "Attachments") ∧
    (∀ r rest, m.add_recipients (r :: rest) =
      .error (attributeError "Recipients")) ∧
    m.add_recipients [] = .ok () ∧
    (∀ a rest, m.add_attachments (some (a :: rest)) =
      .error (attributeError "Attachments")) ∧
    (m.Attachments = [] → m.add_attachments none = .ok []) := by
  refine ⟨?_, ?_, ?_, ?_, ?_, ?_, ?_, ?_, rfl, ?_, ?_⟩
  · simp [Mail.send, h]
  · simp [Mail.save, h]
  · intro f; simp [Mail.move_to, h]
  · simp [Mail.close, h]
  · simp [Mail.display, h]
  · simp [Mail.mark_unread, h]
  · simp [Mail.remove_attachemnt, h]
  · intro r rest; simp [Mail.add_recipients, h]
  · intro a rest; simp [Mail.add_attachments, attachLoop, h]
  · intro ha; simp [Mail.add_attachments, ha, attachLoop]

/-- Witness for C8 (amended) at the freshly constructed unbound record. -/
theorem unbound_operations_raise_witness :
    (Mail.init none).send = .error (attributeError "Send") :=
  (unbound_operations_raise (Mail.init none) rfl).1

/-- C6: when the host raises during construction, `OutlookAPI(account)` ends
in `SystemExit` (process termination, not a recoverable exception) whose
message contains the `check_outlook_is_open` result and the underlying
error's type name and message. -/
theorem construct_fatal_on_host_error (p : ProcState) (env : HostEnv)
    (account : String) (e : PyError) (h : env.dispatch = .error e) :
    OutlookAPI.construct p env account =
      ConstructResult.systemExit
        ("Outlook open status = " ++
          (if OutlookAPI.check_outlook_is_open env then "True" else "False") ++
          ".\n" ++ e.kind ++ ": " ++ e.msg) := by
  simp [OutlookAPI.construct, OutlookAPI.pyInit, h, fatalMessage]

/-- Witness for C6 against the failing host environment. -/
theorem construct_fatal_on_host_error_witness :
    OutlookAPI.construct procFresh envBad "a" =
      ConstructResult.systemExit
        ("Outlook open status = " ++
          (if OutlookAPI.check_outlook_is_open envBad then "True" else "False") ++
          ".\n" ++ "com_error" ++ ": " ++ "boom") :=
  construct_fatal_on_host_error procFresh envBad "a" ⟨"com_error", "boom"⟩ rfl

/-- C5 counterexample: constructing `OutlookAPI('a')` a second time in the
same process returns the stored instance (id 0 both times) but re-runs
`__init__`, so a second `Dispatch` connection is opened: the connection count
goes from 1 to 2, refuting "at most one host connection handle exists per
process" and "a second construction does not open a new connection". -/
theorem second_construction_opens_new_connection :
    OutlookAPI.construct procFresh envOk "a" =
      ConstructResult.ok 0 procAfterFirst ∧
    procAfterFirst.dispatchCount = 1 ∧
    ConstructResult.dispatchCountOf procAfterFirst
      (OutlookAPI.construct procAfterFirst envOk "a") = 2 := by
  refine ⟨?_, rfl, ?_⟩ <;>
    simp [OutlookAPI.construct, OutlookAPI.pyNew, OutlookAPI.pyInit,
      ConstructResult.dispatchCountOf, procFresh, procAfterFirst, envOk,
      snapshotAccounts, lookupDict, hostA, HFolder.name, Folder.ofH_COMObject]

/-- C5 (amended): `OutlookAPI` reuses the stored instance — a second
construction returns the same object — but Python still runs `__init__` on
it, so the construction opens another host connection and rebuilds
`accounts`, `account` and `mail` from scratch. -/
theorem construct_reuses_instance_but_reinitializes
    (p : ProcState) (env : HostEnv) (account : String) (i : Nat) (f : Folder)
    (hid : p.outlookapi = some i)
    (hd : env.dispatch = .ok ())
    (hacct : lookupDict (snapshotAccounts env.folders) account = some f) :
    OutlookAPI.construct p env account =
      ConstructResult.ok i
        { p with dispatchCount := p.dispatchCount + 1,
                 inst := some ⟨snapshotAccounts env.folders, f.COMObject, none⟩ } := by
  simp [OutlookAPI.construct, OutlookAPI.pyNew, OutlookAPI.pyInit, hid, hd, hacct]

/-- Witness for C5 (amended): the second construction against the healthy
host, applied at the state left by the first one. -/
theorem construct_reuses_instance_but_reinitializes_witness :
    OutlookAPI.construct procAfterFirst envOk "a" =
      ConstructResult.ok 0
        { procAfterFirst with
            dispatchCount := procAfterFirst.dispatchCount + 1,
            inst := some ⟨snapshotAccounts envOk.folders,
              (Folder.ofH hostA).COMObject, none⟩ } :=
  construct_reuses_instance_but_reinitializes procAfterFirst envOk "a" 0
    (Folder.ofH hostA) rfl rfl
    (by simp [envOk, snapshotAccounts, hostA, lookupDict, HFolder.name])

end Pyoutlook
